import Mathlib

/-!
Verification of the axis-normalization and shape-collapsing logic of the
DirectML scan kernels (`tensorflow/core/kernels/dml_scan_ops.cc`).

The embedding models:
* `TensorShape` as a `List Nat` of dimension sizes (rank = length);
* the C++ `int` locals of `DmlScanKernel` by explicit truncation to
  32-bit twos-complement (`toInt32`), since the dimension sizes are
  64-bit and the products are stored in 32-bit signed variables;
* `FastBoundsCheck` by the unsigned 64-bit comparison the framework
  performs;
* failure paths (`OP_REQUIRES`, out-of-bounds `dim_size` CHECKs) as
  `Except`/`Option` errors.
-/

namespace DmlScan

/-- Error statuses surfaced by the scan kernels. The source file only ever
constructs `errors::InvalidArgument`; `outOfRange` is carried along so the
two kinds can be told apart. -/
inductive Status where
  | invalidArgument
  | outOfRange
  deriving DecidableEq

deriving instance DecidableEq for Except

/-- Truncation of an integer to 32-bit twos-complement, as performed by the
assignments to the `int` locals (`left_dim_size`, `right_dim_size`,
`axis_dim_size`) in the `DmlScanKernel` constructor. -/
def toInt32 (x : Int) : Int := (x + 2 ^ 31) % 2 ^ 32 - 2 ^ 31

/-- Axis normalization performed by the `ScanInitHelper` constructor:
`axis_ = (axis_arg < 0) ? input.dims() + axis_arg : axis_arg`. -/
def resolveAxis (axisArg : Int) (rank : Nat) : Int :=
  if axisArg < 0 then (rank : Int) + axisArg else axisArg

/-- Bit pattern of a 64-bit signed value reinterpreted as unsigned 64-bit. -/
def toUInt64Bits (x : Int) : Nat := (x % 2 ^ 64).toNat

/-- The framework function `FastBoundsCheck`: both operands are converted to
unsigned 64-bit and compared. -/
def FastBoundsCheck (index limit : Int) : Bool :=
  toUInt64Bits index < toUInt64Bits limit

/-- `TensorShapeUtils::IsScalar`: a shape is scalar when it has rank 0. -/
def IsScalar (shape : List Nat) : Bool := shape.length == 0

/-- The validation performed by the `ScanInitHelper` constructor: the axis
tensor must be scalar (else `InvalidArgument`), the axis value is normalized
with `resolveAxis`, and the result must pass `FastBoundsCheck` against the
input rank (else `InvalidArgument`). On success the stored `axis_` (what
`GetAxis()` later returns) is produced. -/
def ScanInitHelper (inputShape axisShape : List Nat) (axisValue : Int) :
    Except Status Int :=
  if IsScalar axisShape then
    let ax := resolveAxis axisValue inputShape.length
    if FastBoundsCheck ax (inputShape.length : Int) then Except.ok ax
    else Except.error Status.invalidArgument
  else Except.error Status.invalidArgument

/-- `TensorShape::dim_size` with its index CHECK modelled as `none`
(process abort) on an out-of-bounds access. -/
def dimSize (dims : List Nat) (i : Int) : Option Int :=
  if h : 0 ≤ i ∧ i.toNat < dims.length then
    some ((dims.get ⟨i.toNat, h.2⟩ : Nat) : Int)
  else none

/-- One collapsing loop of the `DmlScanKernel` constructor: `acc` is the
running `int` accumulator and each iteration multiplies in one dimension
size, truncating the 64-bit product back to `int`. -/
def collapseLoop (dims : List Nat) : Int → List Int → Option Int
  | acc, [] => some acc
  | acc, i :: rest =>
    match dimSize dims i with
    | none => none
    | some d => collapseLoop dims (toInt32 (acc * d)) rest

/-- The list of loop indices `lo, lo+1, ..., hi-1` (empty when `hi ≤ lo`). -/
def intRange (lo hi : Int) : List Int :=
  (List.range (hi - lo).toNat).map (fun (j : Nat) => lo + (j : Int))

/-- The shape collapse computed by the `DmlScanKernel` constructor: the
dimensions strictly left of the axis are folded into `left_dim_size`, the
ones strictly right of it into `right_dim_size`, the axis dimension is read
into `axis_dim_size`, and the 4-tuple `{1, left, axis, right}` is produced.
All three sizes live in C++ `int` variables, hence the `toInt32`
truncations. The construction of the downstream `TensorShape` and DML graph
node is outside this model. -/
def DmlScanKernelCollapse (dims : List Nat) (axis : Int) : Option (List Int) :=
  match collapseLoop dims 1 (intRange 0 axis) with
  | none => none
  | some left =>
    match collapseLoop dims 1 (intRange (axis + 1) (dims.length : Int)) with
    | none => none
    | some right =>
      match dimSize dims axis with
      | none => none
      | some a => some [1, left, toInt32 a, right]

/-- The same collapse written as a manifestly total function of the shape
and a natural-number axis; the theorems relate `DmlScanKernelCollapse` to
it. -/
def collapseTotal (dims : List Nat) (k : Nat) : List Int :=
  [1, toInt32 ((dims.take k).prod : Nat), toInt32 (dims.getD k 0 : Nat),
    toInt32 ((dims.drop (k + 1)).prod : Nat)]

/-- Left size as the specification words it: the product of the dimensions
strictly before the axis (empty product = 1). -/
def specLeftSize (dims : List Nat) (k : Nat) : Nat := (dims.take k).prod

/-- Right size as the specification words it: the product of the dimensions
strictly after the axis (empty product = 1). -/
def specRightSize (dims : List Nat) (k : Nat) : Nat :=
  (dims.drop (k + 1)).prod

/-- CollapsedShape exactly as the specification words it:
`[1, left_size, axis_size, right_size]` with true (unwrapped) products. -/
def specCollapsedShape (dims : List Nat) (k : Nat) : List Int :=
  [1, (specLeftSize dims k : Nat), (dims.getD k 0 : Nat),
    (specRightSize dims k : Nat)]

/-- Modelled from the spec: `GetOutputShapeAsInputShapeHelper` lives in
`tensorflow/core/kernels/dml_kernel_wrapper.h`, which is not part of this
source tree. The spec states that the scan node output shape equals its input
shape, i.e. the helper returns the input shape unchanged. -/
def GetOutputShapeAsInputShapeHelper (inputShape : List Nat) : List Nat :=
  inputShape

/-- Output shape of a Cumsum/Cumprod kernel invocation as computed by the
wrapper: it is delegated to `GetOutputShapeAsInputShapeHelper` and ignores
the axis and the `reverse`/`exclusive` attributes. -/
def scanOutputShape (inputShape : List Nat) (axis : Int)
    (reverse exclusive : Bool) : List Nat :=
  GetOutputShapeAsInputShapeHelper inputShape

/-! Helper lemmas about 32-bit truncation. -/

theorem toInt32_lt (x : Int) : toInt32 x < 2 ^ 31 := by
  unfold toInt32; omega

theorem neg_le_toInt32 (x : Int) : -2 ^ 31 ≤ toInt32 x := by
  unfold toInt32; omega

theorem toInt32_eq_self {x : Int} (h1 : -2 ^ 31 ≤ x) (h2 : x < 2 ^ 31) :
    toInt32 x = x := by
  unfold toInt32; omega

theorem toInt32_emod (x : Int) : toInt32 x % 2 ^ 32 = x % 2 ^ 32 := by
  unfold toInt32; omega

theorem toInt32_congr {x y : Int} (h : x % 2 ^ 32 = y % 2 ^ 32) :
    toInt32 x = toInt32 y := by
  unfold toInt32; omega

theorem toInt32_mul_left (a b : Int) :
    toInt32 (toInt32 a * b) = toInt32 (a * b) := by
  apply toInt32_congr
  rw [Int.mul_emod, toInt32_emod, ← Int.mul_emod]

theorem toInt32_one : toInt32 1 = 1 := by decide

/-! Helper lemmas about the collapsing loops. -/

theorem collapseLoop_segment (dims : List Nat) :
    ∀ (n lo : Nat) (a : Int), lo + n ≤ dims.length →
      collapseLoop dims (toInt32 a)
          ((List.range n).map (fun j => ((lo + j : Nat) : Int)))
        = some (toInt32 (a * (((dims.drop lo).take n).prod : Nat))) := by
  intro n
  induction n with
  | zero =>
    intro lo a _
    simp [collapseLoop]
  | succ n ih =>
    intro lo a h
    have hlo : lo < dims.length := by omega
    have hmap : ((List.range n).map Nat.succ).map
          (fun j => ((lo + j : Nat) : Int))
        = (List.range n).map (fun j => ((lo + 1 + j : Nat) : Int)) := by
      rw [List.map_map]
      apply List.map_congr_left
      intro j _
      show ((lo + (j + 1) : Nat) : Int) = ((lo + 1 + j : Nat) : Int)
      congr 1
      omega
    have hdim : dimSize dims (lo : Int) = some ((dims.get ⟨lo, hlo⟩ : Nat) : Int) := by
      have hcond : 0 ≤ (lo : Int) ∧ ((lo : Int)).toNat < dims.length := by
        constructor
        · exact Int.natCast_nonneg lo
        · simpa using hlo
      simp only [dimSize, dif_pos hcond]
      simp
    rw [List.range_succ_eq_map, List.map_cons, hmap]
    show collapseLoop dims (toInt32 a) (((lo + 0 : Nat) : Int) :: _) = _
    rw [Nat.add_zero]
    simp only [collapseLoop, hdim]
    rw [toInt32_mul_left]
    rw [ih (lo + 1) (a * (dims.get ⟨lo, hlo⟩ : Nat)) (by omega)]
    have hdrop : dims.drop lo = dims.get ⟨lo, hlo⟩ :: dims.drop (lo + 1) := by
      simpa using List.drop_eq_getElem_cons hlo
    rw [hdrop, List.take_succ_cons, List.prod_cons]
    congr 1
    push_cast
    ring

theorem prod_take_get_drop (dims : List Nat) (k : Nat) (hk : k < dims.length) :
    dims.prod
      = (dims.take k).prod * dims.get ⟨k, hk⟩ * (dims.drop (k + 1)).prod := by
  conv_lhs => rw [← List.take_append_drop k dims]
  have hdrop : dims.drop k = dims.get ⟨k, hk⟩ :: dims.drop (k + 1) := by
    simpa using List.drop_eq_getElem_cons hk
  rw [List.prod_append, hdrop, List.prod_cons, mul_assoc]

theorem intRange_zero (k : Nat) :
    intRange 0 (k : Int) = (List.range k).map (fun j => ((0 + j : Nat) : Int)) := by
  unfold intRange
  have h1 : ((k : Int) - 0).toNat = k := by omega
  rw [h1]
  apply List.map_congr_left
  intro j _
  push_cast
  ring

theorem intRange_right (k len : Nat) :
    intRange ((k : Int) + 1) (len : Int)
      = (List.range (len - (k + 1))).map (fun j => ((k + 1 + j : Nat) : Int)) := by
  unfold intRange
  have h1 : ((len : Int) - ((k : Int) + 1)).toNat = len - (k + 1) := by omega
  rw [h1]
  apply List.map_congr_left
  intro j _
  push_cast
  ring

theorem dimSize_eq (dims : List Nat) (k : Nat) (hk : k < dims.length) :
    dimSize dims (k : Int) = some ((dims.get ⟨k, hk⟩ : Nat) : Int) := by
  have hcond : 0 ≤ (k : Int) ∧ ((k : Int)).toNat < dims.length := by
    refine ⟨Int.natCast_nonneg k, ?_⟩
    simpa using hk
  simp only [dimSize, dif_pos hcond]
  simp

/-- Master lemma: on a valid axis `k < rank`, the kernel collapse code
terminates without any CHECK firing and computes the 32-bit truncations of
the three dimension products. -/
theorem collapse_eq_total (dims : List Nat) (k : Nat) (hk : k < dims.length) :
    DmlScanKernelCollapse dims (k : Int) = some (collapseTotal dims k) := by
  have hleft : collapseLoop dims 1 (intRange 0 (k : Int))
      = some (toInt32 ((dims.take k).prod : Nat)) := by
    rw [intRange_zero, ← toInt32_one]
    rw [collapseLoop_segment dims k 0 1 (by omega)]
    simp
  have hright : collapseLoop dims 1 (intRange ((k : Int) + 1) (dims.length : Int))
      = some (toInt32 ((dims.drop (k + 1)).prod : Nat)) := by
    rw [intRange_right, ← toInt32_one]
    rw [collapseLoop_segment dims (dims.length - (k + 1)) (k + 1) 1 (by omega)]
    have htake : (dims.drop (k + 1)).take (dims.length - (k + 1))
        = dims.drop (k + 1) := by
      rw [← List.length_drop, List.take_length]
    rw [htake, one_mul]
  simp only [DmlScanKernelCollapse, hleft, hright, dimSize_eq dims k hk,
    collapseTotal, List.getD_eq_get dims 0 hk]

/-! Helper lemmas about validation. -/

theorem fastBoundsCheck_iff {i : Int} {L : Nat} (hi1 : -2 ^ 63 ≤ i)
    (hi2 : i < 2 ^ 63) (hL : L < 2 ^ 63) :
    FastBoundsCheck i (L : Int) = true ↔ 0 ≤ i ∧ i < (L : Int) := by
  simp only [FastBoundsCheck, toUInt64Bits, decide_eq_true_eq]
  omega

theorem resolveAxis_lower {a : Int} (R : Nat) (ha : -2 ^ 63 ≤ a) :
    -2 ^ 63 ≤ resolveAxis a R := by
  unfold resolveAxis
  split <;> omega

theorem resolveAxis_upper {a : Int} {R : Nat} (ha : a < 2 ^ 63)
    (hR : R < 2 ^ 31) : resolveAxis a R < 2 ^ 63 := by
  unfold resolveAxis
  split <;> omega

theorem initHelper_nonscalar (inputShape axisShape : List Nat) (a : Int)
    (h : axisShape ≠ []) :
    ScanInitHelper inputShape axisShape a
      = Except.error Status.invalidArgument := by
  have hsc : IsScalar axisShape = false := by
    simp [IsScalar, List.length_eq_zero, h]
  simp [ScanInitHelper, hsc]

theorem initHelper_ok {inputShape axisShape : List Nat} {a ax : Int}
    (ha1 : -2 ^ 63 ≤ a) (ha2 : a < 2 ^ 63)
    (hlen : inputShape.length < 2 ^ 31)
    (h : ScanInitHelper inputShape axisShape a = Except.ok ax) :
    ax = resolveAxis a inputShape.length
      ∧ 0 ≤ ax ∧ ax < (inputShape.length : Int) := by
  have hsc : axisShape = [] := by
    by_contra hne
    rw [initHelper_nonscalar inputShape axisShape a hne] at h
    exact Except.noConfusion h
  subst hsc
  have hscalar : IsScalar ([] : List Nat) = true := rfl
  simp only [ScanInitHelper, hscalar, if_true] at h
  split at h
  case isTrue hb =>
    cases h
    refine ⟨rfl, ?_⟩
    exact (fastBoundsCheck_iff (resolveAxis_lower _ ha1)
      (resolveAxis_upper ha2 hlen) (by omega)).mp hb
  case isFalse hb =>
    exact Except.noConfusion h

theorem initHelper_out_of_bounds (inputShape : List Nat) (a : Int)
    (ha1 : -2 ^ 63 ≤ a) (ha2 : a < 2 ^ 63)
    (hlen : inputShape.length < 2 ^ 31)
    (hout : ¬ (0 ≤ resolveAxis a inputShape.length
        ∧ resolveAxis a inputShape.length < (inputShape.length : Int))) :
    ScanInitHelper inputShape [] a
      = Except.error Status.invalidArgument := by
  have hscalar : IsScalar ([] : List Nat) = true := rfl
  have hb : ¬ (FastBoundsCheck (resolveAxis a inputShape.length)
      (inputShape.length : Int) = true) := by
    intro hb
    exact hout ((fastBoundsCheck_iff (resolveAxis_lower _ ha1)
      (resolveAxis_upper ha2 hlen) (by omega)).mp hb)
  simp only [ScanInitHelper, hscalar, if_true]
  rw [if_neg hb]

theorem collapse_valid (dims : List Nat) (axis : Int) (h0 : 0 ≤ axis)
    (h1 : axis < (dims.length : Int)) :
    DmlScanKernelCollapse dims axis = some (collapseTotal dims axis.toNat) := by
  have hk : axis.toNat < dims.length := by omega
  have hcast : ((axis.toNat : Nat) : Int) = axis := by omega
  rw [← hcast]
  exact collapse_eq_total dims axis.toNat hk

theorem fastBoundsCheck_zero (i : Int) : FastBoundsCheck i 0 = false := by
  simp [FastBoundsCheck, toUInt64Bits]

theorem toInt32_mul3_emod (x y z : Int) :
    (toInt32 x * toInt32 y * toInt32 z) % 2 ^ 32 = (x * y * z) % 2 ^ 32 := by
  conv_lhs => rw [Int.mul_emod, Int.mul_emod (toInt32 x) (toInt32 y),
    toInt32_emod, toInt32_emod, toInt32_emod]
  conv_rhs => rw [Int.mul_emod, Int.mul_emod x y]

/-! The claims. -/

/-- Claim C3 (confirmed): the axis resolver maps a raw scalar axis value
`a` and rank `R` to `R + a` when `a < 0` and to `a` otherwise; in
particular, for every `R ≥ 1`, resolving axis `-1` gives `R - 1` and
resolving axis `-R` gives `0`. -/
theorem C3_resolve_axis (a : Int) (R : Nat) (hR : 1 ≤ R) :
    resolveAxis a R = (if a < 0 then (R : Int) + a else a)
      ∧ resolveAxis (-1) R = (R : Int) - 1
      ∧ resolveAxis (-(R : Int)) R = 0 := by
  refine ⟨rfl, ?_, ?_⟩
  · unfold resolveAxis
    rw [if_pos (by omega)]
    omega
  · unfold resolveAxis
    rw [if_pos (by omega)]
    omega

/-- Witness for C3 at rank 3. -/
theorem C3_resolve_axis_witness :
    resolveAxis (-1) 3 = 2 ∧ resolveAxis (-3) 3 = 0 := by
  have h := C3_resolve_axis (-1) 3 (by decide)
  refine ⟨?_, ?_⟩
  · rw [h.2.1]
    decide
  · have h2 := h.2.2
    norm_num at h2
    exact h2

/-- Claim C5 (confirmed): a non-scalar (rank at least 1) axis input makes
initialization fail with `InvalidArgument`, regardless of the axis value
the tensor contains. -/
theorem C5_nonscalar_axis (inputShape axisShape : List Nat) (a : Int)
    (h : axisShape ≠ []) :
    ScanInitHelper inputShape axisShape a
      = Except.error Status.invalidArgument :=
  initHelper_nonscalar inputShape axisShape a h

/-- Witness for C5: an axis tensor of shape [1]. -/
theorem C5_nonscalar_axis_witness :
    ScanInitHelper [2, 3] [1] 0 = Except.error Status.invalidArgument :=
  C5_nonscalar_axis [2, 3] [1] 0 (by decide)

/-- Claim C9 (confirmed): for a rank-0 (scalar) operand tensor every scalar
axis value is rejected with an error: the valid range [0, 0) is empty, so
no axis value passes the bounds check. -/
theorem C9_rank0_always_fails (a : Int) :
    ScanInitHelper [] [] a = Except.error Status.invalidArgument := by
  have hscalar : IsScalar ([] : List Nat) = true := rfl
  simp only [ScanInitHelper, hscalar, if_true, List.length_nil,
    Nat.cast_zero, fastBoundsCheck_zero]
  simp

/-- Claim C6 (confirmed): once the axis is validated (`0 ≤ axis < rank`),
shape collapsing always succeeds: no dimension access can fail, and the
result is computed by the manifestly total pure function `collapseTotal`. -/
theorem C6_collapse_total_on_valid_axis (dims : List Nat) (axis : Int)
    (h0 : 0 ≤ axis) (h1 : axis < (dims.length : Int)) :
    DmlScanKernelCollapse dims axis = some (collapseTotal dims axis.toNat) :=
  collapse_valid dims axis h0 h1

/-- Witness for C6 at shape [2, 3, 4], axis 1. -/
theorem C6_collapse_total_witness :
    DmlScanKernelCollapse [2, 3, 4] 1 = some (collapseTotal [2, 3, 4] 1) := by
  have h := C6_collapse_total_on_valid_axis [2, 3, 4] 1 (by decide) (by decide)
  simpa using h

/-- Claim C8 (confirmed): whenever `ScanInitHelper` construction succeeds,
the stored axis lies in [0, rank of input), and consequently the collapse
in `DmlScanKernel` performs only in-bounds dimension accesses and
succeeds. -/
theorem C8_stored_axis_in_bounds (inputShape axisShape : List Nat)
    (a ax : Int) (ha1 : -2 ^ 63 ≤ a) (ha2 : a < 2 ^ 63)
    (hlen : inputShape.length < 2 ^ 31)
    (h : ScanInitHelper inputShape axisShape a = Except.ok ax) :
    0 ≤ ax ∧ ax < (inputShape.length : Int)
      ∧ DmlScanKernelCollapse inputShape ax
          = some (collapseTotal inputShape ax.toNat) := by
  obtain ⟨-, h0, h1⟩ := initHelper_ok ha1 ha2 hlen h
  exact ⟨h0, h1, collapse_valid inputShape ax h0 h1⟩

/-- Witness for C8: shape [5], axis value -1 resolves to 0 and is stored. -/
theorem C8_stored_axis_in_bounds_witness :
    0 ≤ (0 : Int) ∧ (0 : Int) < (([5] : List Nat).length : Int)
      ∧ DmlScanKernelCollapse [5] 0 = some (collapseTotal [5] (0 : Int).toNat) :=
  C8_stored_axis_in_bounds [5] [] (-1) 0 (by decide) (by decide) (by decide)
    (by decide)

/-- Claim C7 (confirmed; spec-modelled output-shape helper): for every
successful invocation of the Cumsum or Cumprod kernel the output shape
equals the input shape, independently of the axis and of the `reverse` and
`exclusive` attributes. -/
theorem C7_scan_shape_preserving (inputShape axisShape : List Nat)
    (a ax : Int) (reverse exclusive : Bool)
    (h : ScanInitHelper inputShape axisShape a = Except.ok ax) :
    scanOutputShape inputShape ax reverse exclusive = inputShape := rfl

/-- Witness for C7 at shape [4, 2], axis 1, reverse and exclusive set. -/
theorem C7_scan_shape_preserving_witness :
    scanOutputShape [4, 2] 1 true true = [4, 2] :=
  C7_scan_shape_preserving [4, 2] [] 1 1 true true (by decide)

/-- Claim C1 counterexample: for the rank-1 tensor shape [2^32] with
effective axis 0 the collapsed sizes are 1, 0, 1 (the axis size wraps to 0
in the 32-bit `int`), and their product 0 differs from the total element
count 2^32, so the stated invariant fails on this shape. -/
theorem C1_invariant_counterexample :
    DmlScanKernelCollapse [4294967296] 0 = some [1, 1, 0, 1]
      ∧ ¬ ((1 : Int) * 0 * 1 = (([4294967296] : List Nat).prod : Int)) := by
  constructor
  · decide
  · decide

/-- Claim C1 (amended): for every shape of rank at least 1 and effective
axis `k < rank`, provided each of the three collapsed group sizes (left
product, axis dimension, right product) fits in a 32-bit signed integer,
the collapse satisfies left * axis * right = total element count. -/
theorem C1_collapse_invariant (dims : List Nat) (k : Nat)
    (hk : k < dims.length) (hl : specLeftSize dims k < 2 ^ 31)
    (ha : dims.getD k 0 < 2 ^ 31) (hr : specRightSize dims k < 2 ^ 31) :
    ∃ l a r, DmlScanKernelCollapse dims (k : Int) = some [1, l, a, r]
      ∧ l * a * r = (dims.prod : Int) := by
  unfold specLeftSize at hl
  unfold specRightSize at hr
  refine ⟨toInt32 ((dims.take k).prod : Nat), toInt32 (dims.getD k 0 : Nat),
    toInt32 ((dims.drop (k + 1)).prod : Nat), ?_, ?_⟩
  · exact collapse_eq_total dims k hk
  · rw [toInt32_eq_self (by omega) (by omega),
      toInt32_eq_self (by omega) (by omega),
      toInt32_eq_self (by omega) (by omega)]
    rw [prod_take_get_drop dims k hk, List.getD_eq_get dims 0 hk]
    push_cast
    ring

/-- Witness for C1 at shape [2, 3, 4], axis 1. -/
theorem C1_collapse_invariant_witness :
    ∃ l a r, DmlScanKernelCollapse [2, 3, 4] 1 = some [1, l, a, r]
      ∧ l * a * r = (([2, 3, 4] : List Nat).prod : Int) :=
  C1_collapse_invariant [2, 3, 4] 1 (by decide) (by decide) (by decide)
    (by decide)

/-- Claim C2 counterexample: for the rank-1 shape [2^32] with axis 0 the
code produces [1, 1, 0, 1] while the CollapsedShape of the specification is
[1, 1, 2^32, 1]; the two differ, so the collapser does not always produce
the exact 4-tuple of true products. -/
theorem C2_collapsed_shape_counterexample :
    DmlScanKernelCollapse [4294967296] 0 = some [1, 1, 0, 1]
      ∧ specCollapsedShape [4294967296] 0 = [1, 1, 4294967296, 1]
      ∧ ([1, 1, 0, 1] : List Int) ≠ [1, 1, 4294967296, 1] := by
  refine ⟨by decide, by decide, by decide⟩

/-- Claim C2 (amended): for every input shape and validated effective axis
`k`, provided the left product, the axis dimension and the right product
each fit in a 32-bit signed integer, the collapser produces exactly the
4-tuple [1, left_size, axis_size, right_size] of the specification; in
particular shape [2, 3, 4] with axis 1 yields [1, 2, 3, 4], and a rank-1
shape with axis 0 yields [1, 1, dim0, 1]. -/
theorem C2_collapsed_shape (dims : List Nat) (k : Nat)
    (hk : k < dims.length) (hl : specLeftSize dims k < 2 ^ 31)
    (ha : dims.getD k 0 < 2 ^ 31) (hr : specRightSize dims k < 2 ^ 31) :
    DmlScanKernelCollapse dims (k : Int) = some (specCollapsedShape dims k) := by
  rw [collapse_eq_total dims k hk]
  unfold collapseTotal specCollapsedShape
  unfold specLeftSize at hl ⊢
  unfold specRightSize at hr ⊢
  rw [toInt32_eq_self (by omega) (by omega),
    toInt32_eq_self (by omega) (by omega),
    toInt32_eq_self (by omega) (by omega)]

/-- Witness for C2: the worked example of the specification [2, 3, 4] with axis
1, and the rank-1 boundary shape [7] with axis 0. -/
theorem C2_collapsed_shape_witness :
    DmlScanKernelCollapse [2, 3, 4] 1 = some (specCollapsedShape [2, 3, 4] 1)
      ∧ DmlScanKernelCollapse [7] 0 = some (specCollapsedShape [7] 0) :=
  ⟨C2_collapsed_shape [2, 3, 4] 1 (by decide) (by decide) (by decide)
      (by decide),
    C2_collapsed_shape [7] 0 (by decide) (by decide) (by decide) (by decide)⟩

/-- Claim C4 counterexample: at rank 1 with raw axis 5 the effective axis
is out of range and the helper aborts, but with `InvalidArgument`, not with
the `OutOfRange` error the claim states. -/
theorem C4_error_kind_counterexample :
    ScanInitHelper [5] [] 5 = Except.error Status.invalidArgument
      ∧ ScanInitHelper [5] [] 5 ≠ Except.error Status.outOfRange := by
  refine ⟨by decide, by decide⟩

/-- Claim C4 (amended): for every rank and 64-bit scalar axis value whose
effective axis is not in [0, rank), axis resolution fails with an
`InvalidArgument` error (not `OutOfRange`) and the invocation is
aborted. -/
theorem C4_out_of_range_axis (dims : List Nat) (a : Int)
    (ha1 : -2 ^ 63 ≤ a) (ha2 : a < 2 ^ 63) (hlen : dims.length < 2 ^ 31)
    (hout : ¬ (0 ≤ resolveAxis a dims.length
        ∧ resolveAxis a dims.length < (dims.length : Int))) :
    ScanInitHelper dims [] a = Except.error Status.invalidArgument :=
  initHelper_out_of_bounds dims a ha1 ha2 hlen hout

/-- Witness for C4 at rank 1 with the two raw axes named by the claim:
axis R = 1 and axis -R - 1 = -2. -/
theorem C4_out_of_range_axis_witness :
    ScanInitHelper [5] [] 1 = Except.error Status.invalidArgument
      ∧ ScanInitHelper [5] [] (-2) = Except.error Status.invalidArgument :=
  ⟨C4_out_of_range_axis [5] 1 (by decide) (by decide) (by decide) (by decide),
    C4_out_of_range_axis [5] (-2) (by decide) (by decide) (by decide)
      (by decide)⟩

/-- Claim C10 (confirmed): the three collapsed sizes are stored in 32-bit
signed integers, so the kernel computes exactly the 32-bit wrapped values
of the true products; whenever the true size of a group exceeds 2^31 - 1 the
stored value differs from it, and the element-count invariant holds only
modulo 2^32. -/
theorem C10_int32_wraparound (dims : List Nat) (k : Nat)
    (hk : k < dims.length) :
    DmlScanKernelCollapse dims (k : Int)
        = some [1, toInt32 ((specLeftSize dims k : Nat) : Int),
            toInt32 ((dims.getD k 0 : Nat) : Int),
            toInt32 ((specRightSize dims k : Nat) : Int)]
      ∧ (toInt32 ((specLeftSize dims k : Nat) : Int)
            * toInt32 ((dims.getD k 0 : Nat) : Int)
            * toInt32 ((specRightSize dims k : Nat) : Int)) % 2 ^ 32
          = ((dims.prod : Nat) : Int) % 2 ^ 32
      ∧ (2 ^ 31 ≤ specLeftSize dims k
          → toInt32 ((specLeftSize dims k : Nat) : Int)
              ≠ ((specLeftSize dims k : Nat) : Int))
      ∧ (2 ^ 31 ≤ dims.getD k 0
          → toInt32 ((dims.getD k 0 : Nat) : Int)
              ≠ ((dims.getD k 0 : Nat) : Int))
      ∧ (2 ^ 31 ≤ specRightSize dims k
          → toInt32 ((specRightSize dims k : Nat) : Int)
              ≠ ((specRightSize dims k : Nat) : Int)) := by
  refine ⟨?_, ?_, ?_, ?_, ?_⟩
  · unfold specLeftSize specRightSize
    exact collapse_eq_total dims k hk
  · rw [toInt32_mul3_emod]
    congr 1
    unfold specLeftSize specRightSize
    rw [prod_take_get_drop dims k hk, List.getD_eq_get dims 0 hk]
    push_cast
    ring
  · intro hbig
    have h1 := toInt32_lt ((specLeftSize dims k : Nat) : Int)
    omega
  · intro hbig
    have h1 := toInt32_lt ((dims.getD k 0 : Nat) : Int)
    omega
  · intro hbig
    have h1 := toInt32_lt ((specRightSize dims k : Nat) : Int)
    omega

/-- Witness for C10 at the rank-1 shape [2^31], axis 0: the axis size wraps
to -2^31, which differs from the true dimension 2^31. -/
theorem C10_int32_wraparound_witness :
    DmlScanKernelCollapse [2147483648] 0
        = some [1, toInt32 ((specLeftSize [2147483648] 0 : Nat) : Int),
            toInt32 ((([2147483648] : List Nat).getD 0 0 : Nat) : Int),
            toInt32 ((specRightSize [2147483648] 0 : Nat) : Int)]
      ∧ toInt32 ((([2147483648] : List Nat).getD 0 0 : Nat) : Int)
          ≠ ((([2147483648] : List Nat).getD 0 0 : Nat) : Int) :=
  ⟨(C10_int32_wraparound [2147483648] 0 (by decide)).1,
    (C10_int32_wraparound [2147483648] 0 (by decide)).2.2.2.1 (by decide)⟩

end DmlScan
